import Mathlib

/-!
Shallow embedding of the emotion-detection backend (`backend/app.py`).

The program keeps global state: an `is_running` flag, a camera handle,
a bounded list `emotion_data` of detection events, and a `current_emotion`
string.  HTTP handlers `start`, `stop`, `status`, `get_emotions` and
`get_stats` operate on this state, and a generator `generate_frames` runs
the capture loop (camera read, every-5th-frame analysis, history append
with truncation to the last 100 records).

Mutable Python globals become an explicit state record; the capture loop
becomes structural recursion over a script of frame-read outcomes; Python
floats become rationals; a Python exception in the analyzer becomes an
`AnalyzerResult.err` value whose propagation to the loop-level handler is
modelled by the loop returning an `ExitReason.analyzerError`.
-/

/-- One entry of `emotion_data`: the dict
`{'timestamp': ..., 'emotion': ..., 'confidence': ...}` appended in
`generate_frames`.  Timestamps are modelled as naturals, confidences as
rationals. -/
structure DetectionEvent where
  timestamp : Nat
  emotion : String
  confidence : ℚ
  deriving Repr, DecidableEq

/-- The history-append step of `generate_frames` (app.py lines 106-114):
`emotion_data.append(record)` followed by
`if len(emotion_data) > 100: emotion_data = emotion_data[-100:]`. -/
def recordEmotion (history : List DetectionEvent) (e : DetectionEvent) :
    List DetectionEvent :=
  let h := history ++ [e]
  if 100 < h.length then h.drop (h.length - 100) else h

/-- Python's `xs[-n:]` slice for `n ≥ 1`: the last `min n xs.length`
elements.  Used by `/api/emotions` (`emotion_data[-20:]`) and by the
history truncation (`emotion_data[-100:]`); it is the `recent n` query of
the history store. -/
def recent (xs : List DetectionEvent) (n : Nat) : List DetectionEvent :=
  xs.drop (xs.length - n)

/-- The global mutable state of the backend process.  `camera` models
"the global `camera` variable is not `None`"; `cameraOpen` models "the
underlying device resource is currently open"; `opens` counts successful
`initialize_camera` runs (instrumentation for the open-exactly-once
claims).  `frameCount` is the counter local to `generate_frames`, hosted
here so a single record carries the whole loop state. -/
structure PipelineState where
  isRunning : Bool
  camera : Bool
  cameraOpen : Bool
  opens : Nat
  frameCount : Nat
  analyzerCalls : Nat
  currentEmotion : String
  emotionData : List DetectionEvent
  deriving Repr, DecidableEq

/-- The initial state of the process: not running, no camera, empty
history, `current_emotion = "No face detected"`. -/
def initialState : PipelineState :=
  { isRunning := false
    camera := false
    cameraOpen := false
    opens := 0
    frameCount := 0
    analyzerCalls := 0
    currentEmotion := "No face detected"
    emotionData := [] }

/-- Handler of `POST /api/start` (app.py lines 143-152): under the lock, if not
running set the flag and answer `started`, else answer
`already_running`.  It touches nothing but the flag — in particular it
never opens the camera. -/
def start (s : PipelineState) : String × PipelineState :=
  if ¬ s.isRunning then ("started", { s with isRunning := true })
  else ("already_running", s)

/-- Handler of `POST /api/stop` (app.py lines 154-163): under the lock, clear the
flag; if the camera variable is set, release the device and clear the
variable; answer `stopped`. -/
def stop (s : PipelineState) : String × PipelineState :=
  let s1 := { s with isRunning := false }
  let s2 := if s1.camera then { s1 with cameraOpen := false, camera := false } else s1
  ("stopped", s2)

/-- Outcome of one `detect_emotion_mock` call: either an emotion label
with a confidence, or a raised exception. -/
inductive AnalyzerResult where
  | ok (emotion : String) (confidence : ℚ)
  | err
  deriving Repr, DecidableEq

/-- Outcome of one `camera.read()` call in the loop script. -/
inductive ReadResult where
  | ok
  | fail
  deriving Repr, DecidableEq

/-- Why the capture loop stopped iterating. -/
inductive ExitReason where
  /-- The `if not is_running: break` check fired. -/
  | stopRequested
  /-- Means `camera.read()` returned `success = False` and the loop broke. -/
  | readFailed
  /-- Means `detect_emotion_mock` raised; the exception propagated out of the
  loop body to the `except` handler around the loop. -/
  | analyzerError
  /-- The scripted sequence of read outcomes was exhausted while the loop
  was still willing to iterate. -/
  | scriptEnded
  deriving Repr, DecidableEq

/-- The `while True:` body of `generate_frames` (app.py lines 86-129),
run over a script of frame-read outcomes.  `analyze i` gives the result
of `detect_emotion_mock` on the frame of iteration `i`.  Each iteration:
check `is_running` under the lock (break if cleared), read a frame (break
on failure), and on every iteration with `frame_count % 5 == 0` run the
analyzer, set `current_emotion`, and record a history event unless the
label is `"No face detected"`; finally increment `frame_count`.  An
analyzer exception aborts the loop with `analyzerError`. -/
def runLoop (analyze : Nat → AnalyzerResult) :
    List ReadResult → PipelineState → PipelineState × ExitReason
  | [], s => (s, ExitReason.scriptEnded)
  | r :: rs, s =>
    if ¬ s.isRunning then (s, ExitReason.stopRequested)
    else
      match r with
      | ReadResult.fail => (s, ExitReason.readFailed)
      | ReadResult.ok =>
        if s.frameCount % 5 = 0 then
          match analyze s.frameCount with
          | AnalyzerResult.err =>
            ({ s with analyzerCalls := s.analyzerCalls + 1 },
              ExitReason.analyzerError)
          | AnalyzerResult.ok emotion confidence =>
            let s1 := { s with
              analyzerCalls := s.analyzerCalls + 1
              currentEmotion := emotion }
            let ev : DetectionEvent := ⟨s1.frameCount, emotion, confidence⟩
            let s2 :=
              if emotion ≠ "No face detected" then
                { s1 with emotionData := recordEmotion s1.emotionData ev }
              else s1
            runLoop analyze rs { s2 with frameCount := s2.frameCount + 1 }
        else
          runLoop analyze rs { s with frameCount := s.frameCount + 1 }

/-- `generate_frames` (app.py lines 76-135) as a whole: if
`initialize_camera()` fails, return at once; otherwise the camera is
opened (counted in `opens`), `frame_count` starts at 0, the loop runs,
the `except` clause absorbs any analyzer exception (reflected in the
returned `ExitReason`), and the `finally` clause releases the device
(the `camera` variable itself stays set).  Totality of this function is
the model of "no exception escapes to the server process". -/
def generateFrames (deviceAvailable : Bool) (analyze : Nat → AnalyzerResult)
    (reads : List ReadResult) (s : PipelineState) :
    PipelineState × Option ExitReason :=
  if ¬ deviceAvailable then (s, none)
  else
    let s0 := { s with
      camera := true
      cameraOpen := true
      opens := s.opens + 1
      frameCount := 0 }
    let res := runLoop analyze reads s0
    ({ res.1 with cameraOpen := false }, some res.2)

/-- One step of building the `emotion_counts` dict (app.py lines
186-189): `emotion_counts[emotion] = emotion_counts.get(emotion, 0) + 1`.
Python dicts preserve insertion order, so the dict is an association
list whose keys appear in order of first occurrence. -/
def incr : List (String × Nat) → String → List (String × Nat)
  | [], e => [(e, 1)]
  | (k, v) :: rest, e =>
    if k = e then (k, v + 1) :: rest else (k, v) :: incr rest e

/-- The `emotion_counts` dict computed by `get_stats` over the whole
history. -/
def emotionCounts (data : List DetectionEvent) : List (String × Nat) :=
  data.foldl (fun acc r => incr acc r.emotion) []

/-- Python's `max(items, key=lambda x: x[1])` over the dict items: scan
left to right keeping the current best, replacing it only on a strictly
greater key, so the first item attaining the maximum wins. -/
def maxBySnd : List (String × Nat) → Option (String × Nat)
  | [] => none
  | x :: xs =>
    some (xs.foldl (fun best y => if best.2 < y.2 then y else best) x)

/-- Result of `GET /api/stats`: either the `{'message': 'No data
available'}` body, or the statistics body with total, counts,
percentages and most-common label. -/
inductive StatsResult where
  | noData
  | stats (total : Nat) (counts : List (String × Nat))
      (percentages : List (String × ℚ)) (mostCommon : Option String)
  deriving Repr, DecidableEq

/-- The `most_common` field of a stats body, when the body is the
statistics variant. -/
def StatsResult.mostCommon? : StatsResult → Option (Option String)
  | StatsResult.noData => none
  | StatsResult.stats _ _ _ mc => some mc

/-- Handler of `GET /api/stats` (app.py lines 179-201): on an empty history return
the no-data body before any arithmetic; otherwise build the counts dict,
set `total = len(emotion_data)`, derive `percentages[e] =
(count/total)*100`, and take `most_common` as the first maximal-count
item of the dict (or `None` for an empty dict). -/
def get_stats (data : List DetectionEvent) : StatsResult :=
  if data = [] then StatsResult.noData
  else
    let counts := emotionCounts data
    let total := data.length
    let percentages :=
      counts.map (fun p => (p.1, ((p.2 : ℚ) / (total : ℚ)) * 100))
    StatsResult.stats total counts percentages
      ((maxBySnd counts).map Prod.fst)

/-- Spec-side helper: the largest count appearing in a counts list
(0 for the empty list). -/
def maxCount (counts : List (String × Nat)) : Nat :=
  counts.foldr (fun p m => max p.2 m) 0

/-- Spec-side helper: the labels of a counts list, in dict order. -/
def keysOf (counts : List (String × Nat)) : List String :=
  counts.map Prod.fst

/-- Spec-side helper, following the spec's words "insertion order of
first occurrence": the distinct labels of a label sequence, each at the
position of its first occurrence. -/
def firstOccurrenceOrder (labels : List String) : List String :=
  labels.foldl (fun acc x => if x ∈ acc then acc else acc ++ [x]) []

/-- Stub analyzer used by the end-to-end scenarios: a fixed detection
`{label: "Happy", confidence: 0.9}` on every call. -/
def happyAnalyzer : Nat → AnalyzerResult := fun _ => AnalyzerResult.ok "Happy" (9/10)

/-- Read script of the read-failure scenario: ten good frames followed by
one failed read. -/
def script10 : List ReadResult := List.replicate 10 ReadResult.ok ++ [ReadResult.fail]

/-- The capture loop never writes the `is_running` flag, the camera
variable, the device-open flag, or the open counter: it only reads
`is_running` and mutates `frame_count`, `current_emotion` and
`emotion_data`. -/
theorem runLoop_control_fields (analyze : Nat → AnalyzerResult)
    (rs : List ReadResult) (s : PipelineState) :
    ((runLoop analyze rs s).1.isRunning = s.isRunning) ∧
    ((runLoop analyze rs s).1.camera = s.camera) ∧
    ((runLoop analyze rs s).1.cameraOpen = s.cameraOpen) ∧
    ((runLoop analyze rs s).1.opens = s.opens) := by
  induction rs generalizing s with
  | nil => simp [runLoop]
  | cons r rs ih =>
    by_cases h : s.isRunning
    · cases r with
      | fail => simp [runLoop, h]
      | ok =>
        by_cases h5 : s.frameCount % 5 = 0
        · cases hA : analyze s.frameCount with
          | err => simp [runLoop, h, h5, hA]
          | ok emotion confidence =>
            by_cases hne : emotion = "No face detected"
            · simp [runLoop, h, h5, hA, hne, ih]
            · simp [runLoop, h, h5, hA, hne, ih]
        · simp [runLoop, h, h5, ih]
    · simp [runLoop, h]

/-- C2 counterexample: starting twice from the initial state answers
`started` then `already_running`, but the camera is opened zero times —
not once — because `start` only sets the flag; `initialize_camera` runs
inside `generate_frames`, not on the Idle-to-Running transition. -/
theorem start_twice_opens_zero_counterexample :
    (start initialState).1 = "started" ∧
    (start (start initialState).2).1 = "already_running" ∧
    (start (start initialState).2).2.opens = 0 ∧
    (start (start initialState).2).2.opens ≠ 1 := by
  refine ⟨rfl, rfl, rfl, ?_⟩
  decide

/-- C2 (amended): calling `start()` twice from a non-running state
answers `started` then `already_running`, and neither call opens the
FrameSource — the device-open count is unchanged; the camera is opened
exactly once per run of the frame generator (`initialize_camera` inside
`generate_frames`), not by `start()`. -/
theorem start_twice_no_open (s : PipelineState) (h : s.isRunning = false) :
    (start s).1 = "started" ∧
    (start (start s).2).1 = "already_running" ∧
    (start (start s).2).2.opens = s.opens ∧
    (∀ (analyze : Nat → AnalyzerResult) (reads : List ReadResult),
      (generateFrames true analyze reads (start s).2).1.opens = s.opens + 1) := by
  refine ⟨?_, ?_, ?_, ?_⟩
  · simp [start, h]
  · simp [start, h]
  · simp [start, h]
  · intro analyze reads
    have hopen : ∀ t : PipelineState, (runLoop analyze reads t).1.opens = t.opens :=
      fun t => (runLoop_control_fields analyze reads t).2.2.2
    simp [generateFrames, hopen, start, h]

/-- Witness for the amended C2 at the initial state, with an empty read
script for the generator run. -/
theorem start_twice_no_open_witness :
    (start initialState).1 = "started" ∧
    (start (start initialState).2).1 = "already_running" ∧
    (start (start initialState).2).2.opens = 0 ∧
    (generateFrames true happyAnalyzer [] (start initialState).2).1.opens = 1 :=
  ⟨(start_twice_no_open initialState rfl).1,
   (start_twice_no_open initialState rfl).2.1,
   (start_twice_no_open initialState rfl).2.2.1,
   (start_twice_no_open initialState rfl).2.2.2 happyAnalyzer []⟩

/-- C3 counterexample: running the generator against ten good frames and
then a failed read makes the loop break with `readFailed` and the
`finally` clause release the camera, but `is_running` stays `true`:
`generate_frames` never assigns the flag (it is not even in its `global`
statement), so the read failure does not make `is_running` false. -/
theorem read_failure_flag_counterexample :
    (generateFrames true happyAnalyzer script10
        { initialState with isRunning := true }).2 = some ExitReason.readFailed ∧
    (generateFrames true happyAnalyzer script10
        { initialState with isRunning := true }).1.cameraOpen = false ∧
    (generateFrames true happyAnalyzer script10
        { initialState with isRunning := true }).1.isRunning = true :=
  ⟨rfl, rfl, rfl⟩

/-- C3 (amended): when a frame read fails mid-run, the capture loop
terminates with `readFailed`, the camera is released by the `finally`
clause, and no exception escapes (the generator returns normally) — but
the `is_running` flag is left unchanged (still true); the generator never
writes it. -/
theorem read_failure_auto_stop (s : PipelineState) (h : s.isRunning = true) :
    (generateFrames true happyAnalyzer script10 s).2 = some ExitReason.readFailed ∧
    (generateFrames true happyAnalyzer script10 s).1.cameraOpen = false ∧
    (generateFrames true happyAnalyzer script10 s).1.isRunning = s.isRunning := by
  simp [generateFrames, script10, runLoop, happyAnalyzer, h]

/-- Witness for the amended C3 at a concrete running state. -/
theorem read_failure_auto_stop_witness :
    (generateFrames true happyAnalyzer script10
        { initialState with isRunning := true }).2 = some ExitReason.readFailed ∧
    (generateFrames true happyAnalyzer script10
        { initialState with isRunning := true }).1.cameraOpen = false ∧
    (generateFrames true happyAnalyzer script10
        { initialState with isRunning := true }).1.isRunning =
      ({ initialState with isRunning := true } : PipelineState).isRunning :=
  read_failure_auto_stop { initialState with isRunning := true } rfl

/-- C4 counterexample: with an analyzer that raises on every call and ten
good frames scripted, the run ends with `analyzerError` after a single
analyzer call and zero completed iterations (`frame_count` still 0): the
loop is aborted by the analyzer error rather than continuing with "no
detections this cycle". -/
theorem analyzer_error_aborts_counterexample :
    (generateFrames true (fun _ => AnalyzerResult.err) (List.replicate 10 ReadResult.ok)
        { initialState with isRunning := true }).2 = some ExitReason.analyzerError ∧
    (generateFrames true (fun _ => AnalyzerResult.err) (List.replicate 10 ReadResult.ok)
        { initialState with isRunning := true }).1.frameCount = 0 ∧
    (generateFrames true (fun _ => AnalyzerResult.err) (List.replicate 10 ReadResult.ok)
        { initialState with isRunning := true }).1.analyzerCalls = 1 :=
  ⟨rfl, rfl, rfl⟩

/-- C4 (amended): an analyzer error is caught, but by the `except`
handler wrapped around the whole loop, not at the call site: the loop is
aborted (the erroring cycle records nothing and no further cycle runs),
the `finally` clause releases the camera, and no exception escapes the
generator. -/
theorem analyzer_error_caught_at_loop_level (s : PipelineState)
    (rs : List ReadResult) (h : s.isRunning = true) :
    (generateFrames true (fun _ => AnalyzerResult.err) (ReadResult.ok :: rs) s).2
        = some ExitReason.analyzerError ∧
    (generateFrames true (fun _ => AnalyzerResult.err) (ReadResult.ok :: rs) s).1.cameraOpen
        = false ∧
    (generateFrames true (fun _ => AnalyzerResult.err) (ReadResult.ok :: rs) s).1.emotionData
        = s.emotionData ∧
    (generateFrames true (fun _ => AnalyzerResult.err) (ReadResult.ok :: rs) s).1.isRunning
        = s.isRunning := by
  simp [generateFrames, runLoop, h]

/-- Witness for the amended C4 at a concrete running state with nine
further scripted reads. -/
theorem analyzer_error_caught_at_loop_level_witness :
    (generateFrames true (fun _ => AnalyzerResult.err)
        (ReadResult.ok :: List.replicate 9 ReadResult.ok)
        { initialState with isRunning := true }).2 = some ExitReason.analyzerError ∧
    (generateFrames true (fun _ => AnalyzerResult.err)
        (ReadResult.ok :: List.replicate 9 ReadResult.ok)
        { initialState with isRunning := true }).1.cameraOpen = false ∧
    (generateFrames true (fun _ => AnalyzerResult.err)
        (ReadResult.ok :: List.replicate 9 ReadResult.ok)
        { initialState with isRunning := true }).1.emotionData =
      ({ initialState with isRunning := true } : PipelineState).emotionData ∧
    (generateFrames true (fun _ => AnalyzerResult.err)
        (ReadResult.ok :: List.replicate 9 ReadResult.ok)
        { initialState with isRunning := true }).1.isRunning =
      ({ initialState with isRunning := true } : PipelineState).isRunning :=
  analyzer_error_caught_at_loop_level { initialState with isRunning := true }
    (List.replicate 9 ReadResult.ok) rfl

/-- C5: `stop()` is idempotent: on an Idle pipeline (flag down, no camera
handle) it is a no-op answering `stopped` and cannot throw; a second
`stop()` returns exactly what the first returned; and after any `stop()`
the pipeline is not running, the handle variable is cleared, and a held
device has been released. -/
theorem stop_idempotent :
    (∀ s : PipelineState, s.isRunning = false → s.camera = false →
      stop s = ("stopped", s)) ∧
    (∀ s : PipelineState, stop (stop s).2 = stop s) ∧
    (∀ s : PipelineState, (stop s).1 = "stopped" ∧ (stop s).2.isRunning = false ∧
      (stop s).2.camera = false ∧ (s.camera = true → (stop s).2.cameraOpen = false)) := by
  refine ⟨?_, ?_, ?_⟩
  · intro s h1 h2
    cases s
    simp_all [stop]
  · intro s
    cases s with
    | mk isR cam camO op fc ac ce ed => by_cases hc : cam <;> simp [stop, hc]
  · intro s
    cases s with
    | mk isR cam camO op fc ac ce ed =>
      by_cases hc : cam <;> simp [stop, hc]

/-- Witness for C5 at the initial (Idle) state. -/
theorem stop_idempotent_witness :
    stop initialState = ("stopped", initialState) ∧
    stop (stop initialState).2 = stop initialState :=
  ⟨stop_idempotent.1 initialState rfl rfl, stop_idempotent.2.1 initialState⟩

/-- C6: `get_stats` on the empty history takes the `if not emotion_data`
branch and returns the explicit `{'message': 'No data available'}`
result before any count, percentage, or division is computed. -/
theorem stats_empty_no_data : get_stats [] = StatsResult.noData := rfl

/-- C9: with the stub analyzer returning `{label: "Happy", confidence:
0.9}` on every call, 25 loop iterations from a running start invoke the
analyzer exactly 5 times (on frame counts 0, 5, 10, 15, 20), record
exactly 5 history events, and leave `current_emotion = "Happy"`. -/
theorem analyzer_every_fifth_frame :
    (runLoop happyAnalyzer (List.replicate 25 ReadResult.ok)
        { initialState with isRunning := true }).1.analyzerCalls = 5 ∧
    (runLoop happyAnalyzer (List.replicate 25 ReadResult.ok)
        { initialState with isRunning := true }).1.emotionData.length = 5 ∧
    (runLoop happyAnalyzer (List.replicate 25 ReadResult.ok)
        { initialState with isRunning := true }).1.currentEmotion = "Happy" :=
  ⟨rfl, rfl, rfl⟩

/-- A completed record operation leaves at most 100 entries: after the
append, the truncation `emotion_data = emotion_data[-100:]` fires exactly
when the length exceeds 100. -/
theorem recordEmotion_length_le (hist : List DetectionEvent) (e : DetectionEvent) :
    (recordEmotion hist e).length ≤ 100 := by
  by_cases h100 : 100 < (hist ++ [e]).length
  · simp only [recordEmotion, if_pos h100, List.length_drop]
    omega
  · simp only [recordEmotion, if_neg h100]
    omega

/-- A record operation is exactly "append, then keep the last 100". -/
theorem recordEmotion_eq_recent (hist : List DetectionEvent) (e : DetectionEvent) :
    recordEmotion hist e = recent (hist ++ [e]) 100 := by
  simp only [recordEmotion, recent]
  by_cases h100 : 100 < (hist ++ [e]).length
  · rw [if_pos h100]
  · have h0 : (hist ++ [e]).length - 100 = 0 := by omega
    rw [if_neg h100, h0, List.drop_zero]

/-- Keeping the last 100 before appending more never changes the final
last-100 window. -/
theorem recent_recent_append (xs ys : List DetectionEvent) :
    recent (recent xs 100 ++ ys) 100 = recent (xs ++ ys) 100 := by
  unfold recent
  by_cases h : xs.length ≤ 100
  · have h0 : xs.length - 100 = 0 := by omega
    simp [h0]
  · push_neg at h
    conv_rhs => rw [← List.take_append_drop (xs.length - 100) xs]
    rw [List.append_assoc]
    rw [show (xs.take (xs.length - 100) ++ (xs.drop (xs.length - 100) ++ ys)).length - 100
        = (xs.take (xs.length - 100)).length + ((xs.drop (xs.length - 100) ++ ys).length - 100) from by
      simp only [List.length_take, List.length_drop, List.length_append]
      omega]
    rw [List.drop_append]

/-- Folding record operations over a stream of events from any history
of at most 100 entries yields exactly the last-100 window of the whole
sequence, in insertion order. -/
theorem foldl_recordEmotion (es : List DetectionEvent) :
    ∀ hist : List DetectionEvent, hist.length ≤ 100 →
      List.foldl recordEmotion hist es = recent (hist ++ es) 100 := by
  induction es with
  | nil =>
    intro hist hlen
    have h0 : hist.length - 100 = 0 := by omega
    simp [recent, h0]
  | cons e es ih =>
    intro hist hlen
    calc List.foldl recordEmotion hist (e :: es)
        = List.foldl recordEmotion (recordEmotion hist e) es := rfl
      _ = recent (recordEmotion hist e ++ es) 100 := ih _ (recordEmotion_length_le hist e)
      _ = recent (recent (hist ++ [e]) 100 ++ es) 100 := by rw [recordEmotion_eq_recent]
      _ = recent ((hist ++ [e]) ++ es) 100 := recent_recent_append _ _
      _ = recent (hist ++ e :: es) 100 := by simp

/-- C1: the history is capacity-bounded at 100 with FIFO eviction: every
completed record operation leaves at most 100 entries, and after
recording any 150 sequential events into an empty history the last-100
query returns exactly the last 100 of them, in insertion order. -/
theorem history_capacity_fifo :
    (∀ (hist : List DetectionEvent) (e : DetectionEvent),
      (recordEmotion hist e).length ≤ 100) ∧
    (∀ es : List DetectionEvent, es.length = 150 →
      recent (List.foldl recordEmotion [] es) 100 = es.drop 50) := by
  constructor
  · exact recordEmotion_length_le
  · intro es h150
    rw [foldl_recordEmotion es [] (by simp)]
    simp [recent, h150]

/-- Concrete sequence of 150 distinct events used to witness C1. -/
def seqEvents : List DetectionEvent :=
  (List.range 150).map (fun i => ⟨i, "Happy", 9/10⟩)

/-- Witness for C1 on 150 concrete sequential events. -/
theorem history_capacity_fifo_witness :
    (recordEmotion [] ⟨0, "Happy", 9/10⟩).length ≤ 100 ∧
    recent (List.foldl recordEmotion [] seqEvents) 100 = seqEvents.drop 50 :=
  ⟨history_capacity_fifo.1 [] ⟨0, "Happy", 9/10⟩,
   history_capacity_fifo.2 seqEvents (by simp [seqEvents])⟩

/-- One dict-increment step adds exactly one to the total of the counts. -/
theorem sum_incr (acc : List (String × Nat)) (e : String) :
    ((incr acc e).map Prod.snd).sum = (acc.map Prod.snd).sum + 1 := by
  induction acc with
  | nil => simp [incr]
  | cons p rest ih =>
    obtain ⟨k, v⟩ := p
    by_cases hk : k = e
    · simp only [incr, if_pos hk, List.map_cons, List.sum_cons]
      omega
    · simp only [incr, if_neg hk, List.map_cons, List.sum_cons, ih]
      omega

/-- Folding the dict-increment over the history adds its length to the
total of the counts. -/
theorem sum_foldl_incr (data : List DetectionEvent) :
    ∀ acc : List (String × Nat),
      ((data.foldl (fun a r => incr a r.emotion) acc).map Prod.snd).sum
        = (acc.map Prod.snd).sum + data.length := by
  induction data with
  | nil => intro acc; simp
  | cons d ds ih =>
    intro acc
    simp only [List.foldl_cons, List.length_cons]
    rw [ih (incr acc d.emotion), sum_incr]
    omega

/-- The per-label counts of `get_stats` total exactly the history
length. -/
theorem sum_emotionCounts (data : List DetectionEvent) :
    ((emotionCounts data).map Prod.snd).sum = data.length := by
  simpa [emotionCounts] using sum_foldl_incr data []

/-- Summing `(count/t)*100` over an association list equals the summed
counts divided by `t`, times 100. -/
theorem perc_sum (l : List (String × Nat)) (t : ℚ) :
    ((l.map (fun p => (p.1, ((p.2 : ℚ) / t) * 100))).map Prod.snd).sum
      = (((l.map Prod.snd).sum : Nat) : ℚ) / t * 100 := by
  induction l with
  | nil => simp
  | cons p rest ih =>
    simp only [List.map_cons, List.sum_cons, ih]
    push_cast
    ring

/-- C7: on every non-empty history `get_stats` reports, for each label,
the percentage `(count/total)*100`, and those percentages sum exactly to
100 (exactly, since the embedding computes in ℚ; the Python floats agree
within floating tolerance). -/
theorem stats_percentages_sum (data : List DetectionEvent) (h : data ≠ []) :
    ∃ mc, get_stats data =
        StatsResult.stats data.length (emotionCounts data)
          ((emotionCounts data).map
            (fun p => (p.1, ((p.2 : ℚ) / (data.length : ℚ)) * 100))) mc ∧
      (((emotionCounts data).map
          (fun p => (p.1, ((p.2 : ℚ) / (data.length : ℚ)) * 100))).map Prod.snd).sum = 100 := by
  refine ⟨(maxBySnd (emotionCounts data)).map Prod.fst, ?_, ?_⟩
  · simp [get_stats, h]
  · rw [perc_sum, sum_emotionCounts]
    have hlen : (data.length : ℚ) ≠ 0 := by
      have hz : data.length ≠ 0 := by
        cases data with
        | nil => exact absurd rfl h
        | cons a l => simp
      exact_mod_cast hz
    rw [div_self hlen, one_mul]

/-- Concrete three-event history used by the statistics witnesses. -/
def sampleData : List DetectionEvent :=
  [⟨0, "Happy", 9/10⟩, ⟨1, "Sad", 1/2⟩, ⟨2, "Happy", 3/4⟩]

/-- Witness for C7 on a concrete three-event history. -/
theorem stats_percentages_sum_witness :
    ∃ mc, get_stats sampleData =
        StatsResult.stats sampleData.length (emotionCounts sampleData)
          ((emotionCounts sampleData).map
            (fun p => (p.1, ((p.2 : ℚ) / (sampleData.length : ℚ)) * 100))) mc ∧
      (((emotionCounts sampleData).map
          (fun p => (p.1, ((p.2 : ℚ) / (sampleData.length : ℚ)) * 100))).map Prod.snd).sum = 100 :=
  stats_percentages_sum sampleData (by simp [sampleData])

/-- Unfolding lemma for the maximal count of a counts list. -/
theorem maxCount_cons (p : String × Nat) (rest : List (String × Nat)) :
    maxCount (p :: rest) = max p.2 (maxCount rest) := rfl

/-- Every count in the list is bounded by the maximal count. -/
theorem le_maxCount (l : List (String × Nat)) : ∀ q ∈ l, q.2 ≤ maxCount l := by
  induction l with
  | nil => simp
  | cons p rest ih =>
    intro q hq
    rcases List.mem_cons.mp hq with hq1 | hq2
    · subst hq1
      rw [maxCount_cons]
      omega
    · have := ih q hq2
      rw [maxCount_cons]
      omega

/-- The count selected by Python's `max` scan is the larger of the seed's
count and the maximal count of the scanned items. -/
theorem foldl_max_snd (xs : List (String × Nat)) :
    ∀ x, (List.foldl (fun best y => if best.2 < y.2 then y else best) x xs).2
      = max x.2 (maxCount xs) := by
  induction xs with
  | nil => intro x; simp [maxCount]
  | cons y ys ih =>
    intro x
    simp only [List.foldl_cons]
    rw [ih, maxCount_cons]
    by_cases hxy : x.2 < y.2
    · rw [if_pos hxy]
      omega
    · rw [if_neg hxy]
      omega

/-- When no later item strictly beats the seed, the `max` scan keeps the
seed: this is how the first item attaining the maximum wins a tie. -/
theorem foldl_max_of_le (xs : List (String × Nat)) :
    ∀ x, maxCount xs ≤ x.2 →
      List.foldl (fun best y => if best.2 < y.2 then y else best) x xs = x := by
  induction xs with
  | nil => intro x _; rfl
  | cons y ys ih =>
    intro x hle
    rw [maxCount_cons] at hle
    have hy : ¬ x.2 < y.2 := by omega
    simp only [List.foldl_cons, if_neg hy]
    exact ih x (by omega)

/-- When some later item strictly beats the seed, the `max` scan returns
exactly the first item of the list attaining the maximal count. -/
theorem foldl_max_of_lt (xs : List (String × Nat)) :
    ∀ x, x.2 < maxCount xs →
      ∃ b, xs.find? (fun p => p.2 == maxCount xs) = some b ∧
        List.foldl (fun best y => if best.2 < y.2 then y else best) x xs = b := by
  induction xs with
  | nil =>
    intro x hx
    simp [maxCount] at hx
  | cons y ys ih =>
    intro x hx
    rw [maxCount_cons] at hx
    by_cases hy : maxCount ys ≤ y.2
    · have hM : maxCount (y :: ys) = y.2 := by rw [maxCount_cons]; omega
      refine ⟨y, ?_, ?_⟩
      · rw [List.find?_cons_of_pos]
        simp [hM]
      · have hxy : x.2 < y.2 := by omega
        simp only [List.foldl_cons, if_pos hxy]
        exact foldl_max_of_le ys y hy
    · push_neg at hy
      have hM : maxCount (y :: ys) = maxCount ys := by rw [maxCount_cons]; omega
      have hx2 : (if x.2 < y.2 then y else x).2 < maxCount ys := by
        by_cases h2 : x.2 < y.2
        · rw [if_pos h2]; omega
        · rw [if_neg h2]; omega
      obtain ⟨b, hb1, hb2⟩ := ih (if x.2 < y.2 then y else x) hx2
      refine ⟨b, ?_, ?_⟩
      · rw [List.find?_cons_of_neg, hM]
        · exact hb1
        · simp [hM]
          omega
      · simp only [List.foldl_cons]
        exact hb2

/-- Characterisation of `max(emotion_counts.items(), key=...)`: on a
non-empty counts list it returns the first item attaining the maximal
count, and that count bounds every other count. -/
theorem maxBySnd_spec (counts : List (String × Nat)) (h : counts ≠ []) :
    ∃ b, maxBySnd counts = some b ∧
      counts.find? (fun p => p.2 == maxCount counts) = some b ∧
      ∀ q ∈ counts, q.2 ≤ b.2 := by
  match counts, h with
  | x :: xs, _ =>
    by_cases hx : maxCount xs ≤ x.2
    · refine ⟨x, ?_, ?_, ?_⟩
      · simp [maxBySnd, foldl_max_of_le xs x hx]
      · rw [List.find?_cons_of_pos]
        rw [maxCount_cons]
        simp
        omega
      · intro q hq
        rcases List.mem_cons.mp hq with hq1 | hq2
        · subst hq1; exact le_refl _
        · exact le_trans (le_maxCount xs q hq2) hx
    · push_neg at hx
      obtain ⟨b, hb1, hb2⟩ := foldl_max_of_lt xs x hx
      have hM : maxCount (x :: xs) = maxCount xs := by rw [maxCount_cons]; omega
      have hbv : b.2 = maxCount xs := by
        have hv := foldl_max_snd xs x
        rw [hb2] at hv
        omega
      refine ⟨b, ?_, ?_, ?_⟩
      · simp [maxBySnd, hb2]
      · rw [List.find?_cons_of_neg, hM]
        · exact hb1
        · simp [hM]
          omega
      · intro q hq
        rcases List.mem_cons.mp hq with hq1 | hq2
        · subst hq1; omega
        · have := le_maxCount xs q hq2; omega

/-- The dict-increment never produces an empty dict. -/
theorem incr_ne_nil (acc : List (String × Nat)) (e : String) : incr acc e ≠ [] := by
  cases acc with
  | nil => simp [incr]
  | cons p rest =>
    obtain ⟨k, v⟩ := p
    by_cases hk : k = e <;> simp [incr, hk]

/-- Folding the dict-increment preserves non-emptiness of the dict. -/
theorem foldl_incr_ne_nil (ds : List DetectionEvent) :
    ∀ acc : List (String × Nat), acc ≠ [] →
      ds.foldl (fun a r => incr a r.emotion) acc ≠ [] := by
  induction ds with
  | nil => intro acc ha; simpa
  | cons d ds ih =>
    intro acc ha
    simp only [List.foldl_cons]
    exact ih _ (incr_ne_nil acc d.emotion)

/-- A non-empty history yields a non-empty counts dict. -/
theorem emotionCounts_ne_nil (data : List DetectionEvent) (h : data ≠ []) :
    emotionCounts data ≠ [] := by
  match data, h with
  | d :: ds, _ =>
    simpa [emotionCounts] using
      foldl_incr_ne_nil ds (incr [] d.emotion) (incr_ne_nil [] d.emotion)

/-- One dict-increment appends the key at the end exactly when it is
new, so dict key order is first-occurrence order. -/
theorem keysOf_incr (acc : List (String × Nat)) (e : String) :
    keysOf (incr acc e) = if e ∈ keysOf acc then keysOf acc else keysOf acc ++ [e] := by
  induction acc with
  | nil => simp [incr, keysOf]
  | cons p rest ih =>
    obtain ⟨k, v⟩ := p
    by_cases hk : k = e
    · subst hk
      simp [incr, keysOf]
    · have hek : e ≠ k := fun hh => hk hh.symm
      simp only [keysOf, List.map_cons] at ih ⊢
      simp only [incr, if_neg hk, List.map_cons]
      rw [ih]
      by_cases he : e ∈ List.map Prod.fst rest
      · rw [if_pos he, if_pos (List.mem_cons_of_mem k he)]
      · rw [if_neg he, if_neg (by simp [hek, he])]
        simp

/-- Folded version of `keysOf_incr` over a label sequence. -/
theorem keysOf_foldl_incr (es : List String) :
    ∀ acc : List (String × Nat),
      keysOf (es.foldl incr acc)
        = es.foldl (fun a x => if x ∈ a then a else a ++ [x]) (keysOf acc) := by
  induction es with
  | nil => intro acc; rfl
  | cons e es ih =>
    intro acc
    simp only [List.foldl_cons]
    rw [ih (incr acc e), keysOf_incr]

/-- The counts dict lists its labels in insertion order of first
occurrence in the history. -/
theorem keysOf_emotionCounts (data : List DetectionEvent) :
    keysOf (emotionCounts data) = firstOccurrenceOrder (data.map DetectionEvent.emotion) := by
  unfold emotionCounts firstOccurrenceOrder
  rw [← List.foldl_map]
  exact keysOf_foldl_incr (data.map DetectionEvent.emotion) []

/-- C8: on every non-empty history, `get_stats` reports as `most_common`
a label of maximal count, and ties break in favour of the first label
attaining the maximal count in the counts dict — whose key order is the
insertion order of first occurrence in the history. -/
theorem stats_most_common (data : List DetectionEvent) (h : data ≠ []) :
    ∃ b : String × Nat,
      (get_stats data).mostCommon? = some (some b.1) ∧
      (emotionCounts data).find? (fun p => p.2 == maxCount (emotionCounts data)) = some b ∧
      (∀ q ∈ emotionCounts data, q.2 ≤ b.2) ∧
      keysOf (emotionCounts data) = firstOccurrenceOrder (data.map DetectionEvent.emotion) := by
  obtain ⟨b, hb1, hb2, hb3⟩ := maxBySnd_spec (emotionCounts data) (emotionCounts_ne_nil data h)
  refine ⟨b, ?_, hb2, hb3, keysOf_emotionCounts data⟩
  simp [get_stats, h, StatsResult.mostCommon?, hb1]

/-- Concrete five-event history with a tie (two `Happy`, two `Sad`, one
`Angry`) used to witness the tie-break. -/
def tieData : List DetectionEvent :=
  [⟨0, "Happy", 1⟩, ⟨1, "Sad", 1⟩, ⟨2, "Sad", 1⟩, ⟨3, "Happy", 1⟩, ⟨4, "Angry", 1⟩]

/-- Witness for C8 on the concrete tied history. -/
theorem stats_most_common_witness :
    ∃ b : String × Nat,
      (get_stats tieData).mostCommon? = some (some b.1) ∧
      (emotionCounts tieData).find? (fun p => p.2 == maxCount (emotionCounts tieData)) = some b ∧
      (∀ q ∈ emotionCounts tieData, q.2 ≤ b.2) ∧
      keysOf (emotionCounts tieData) = firstOccurrenceOrder (tieData.map DetectionEvent.emotion) :=
  stats_most_common tieData (by simp [tieData])

/-- C10: whenever the history is non-empty, the counts dict is non-empty,
so the `None` fallback of `most_common` is unreachable: `get_stats`
always carries a non-null most-common label. -/
theorem stats_most_common_non_null (data : List DetectionEvent) (h : data ≠ []) :
    emotionCounts data ≠ [] ∧
    ∃ m : String, (get_stats data).mostCommon? = some (some m) := by
  refine ⟨emotionCounts_ne_nil data h, ?_⟩
  obtain ⟨b, hb1, _, _⟩ := maxBySnd_spec (emotionCounts data) (emotionCounts_ne_nil data h)
  exact ⟨b.1, by simp [get_stats, h, StatsResult.mostCommon?, hb1]⟩

/-- Witness for C10 on a concrete three-event history. -/
theorem stats_most_common_non_null_witness :
    emotionCounts sampleData ≠ [] ∧
    ∃ m : String, (get_stats sampleData).mostCommon? = some (some m) :=
  stats_most_common_non_null sampleData (by simp [sampleData])
